import Mathlib

/-!
Verification of the RAGDuplicate backend pipeline.

This development shallowly embeds the Python sources of the repository:
  backend/core/duplicate.py        (sentence split, per-sentence remote lookup,
                                    record aggregation, markdown rendering)
  backend/dify_wrapper/dify_client.py  (client construction, status check,
                                    blocking and streaming response processing)
  backend/utils/document_handler.py    (extension dispatch, markdown read/write,
                                    overwrite gating)
  backend/api/api.py               (temp-file cleanup logic of the two
                                    processing endpoints)

Python dynamic values exchanged with the remote JSON API are embedded as the
inductive type `JValue`; Python numbers carry their decimal literal, which is
what the report renderer interpolates.  Fallible Python code is embedded in
`Except PyError`; a raised exception corresponds to an `Except.error`.  The
filesystem is embedded as an association list from path to file content.
External library calls (python-docx, pandas, json.loads, requests) are
modelled as opaque parameters or opaque payloads, never re-implemented.
-/

/-- Embedding of a Python/JSON dynamic value.  Numbers carry their decimal
literal string, the form in which the renderer interpolates them. -/
inductive JValue where
  | Jnull : JValue
  | Jbool : Bool → JValue
  | Jnum : String → JValue
  | Jstr : String → JValue
  | Jarr : List JValue → JValue
  | Jobj : List (String × JValue) → JValue
deriving Repr

/-- Embedding of the Python exception kinds raised by the embedded code. -/
inductive PyError where
  | assertionError : PyError
  | attributeError : String → PyError
  | typeError : String → PyError
  | keyError : String → PyError
  | indexError : String → PyError
  | valueError : String → PyError
  | fileExistsError : String → PyError
  | fileNotFoundError : String → PyError
  | exception : String → PyError
deriving Repr, DecidableEq

/-- Python `dict.get(k)`: `none` embeds Python `None` for an absent key.
Dict keys are unique, so `find?` matches the Python lookup. -/
def objGet (kvs : List (String × JValue)) (k : String) : Option JValue :=
  (kvs.find? (fun p => p.1 == k)).map Prod.snd

/-- Whether a decimal number literal denotes zero (every digit it contains
is the digit zero); used only for Python truthiness of numbers. -/
def numIsZero (r : String) : Bool :=
  !(r.toList.any (fun c => c.isDigit && c != '0'))

/-- Python truthiness of an embedded dynamic value. -/
def truthy : JValue → Bool
  | .Jnull => false
  | .Jbool b => b
  | .Jnum r => !(numIsZero r)
  | .Jstr s => !(s == "")
  | .Jarr xs => !xs.isEmpty
  | .Jobj kvs => !kvs.isEmpty

/-- Python `len(v)`: defined for strings, lists and dicts, `TypeError`
otherwise. -/
def pyLen : JValue → Except PyError Nat
  | .Jstr s => .ok s.length
  | .Jarr xs => .ok xs.length
  | .Jobj kvs => .ok kvs.length
  | _ => .error (.typeError "object has no len")

/-- Python `v[j]` for a natural index `j`. -/
def pyIndexNat : JValue → Nat → Except PyError JValue
  | .Jarr xs, j =>
      match xs.get? j with
      | some v => .ok v
      | none => .error (.indexError "list index out of range")
  | .Jstr s, j =>
      match s.toList.get? j with
      | some c => .ok (.Jstr (String.singleton c))
      | none => .error (.indexError "string index out of range")
  | .Jobj _, j => .error (.keyError (toString j))
  | _, _ => .error (.typeError "object is not subscriptable")

/-- Python `v[k]` for a string key `k`. -/
def pySubscrStr : JValue → String → Except PyError JValue
  | .Jobj kvs, k =>
      match objGet kvs k with
      | some v => .ok v
      | none => .error (.keyError k)
  | .Jarr _, _ => .error (.typeError "list indices must be integers or slices")
  | .Jstr _, _ => .error (.typeError "string indices must be integers")
  | _, _ => .error (.typeError "object is not subscriptable")

mutual

/-- Python `str(v)` / f-string interpolation of an embedded value: strings
render verbatim, numbers render their literal; containers render their
elements with `repr`, as Python does. -/
def pyStr : JValue → String
  | .Jnull => "None"
  | .Jbool b => if b then "True" else "False"
  | .Jnum r => r
  | .Jstr s => s
  | .Jarr xs => "[" ++ pyReprList xs ++ "]"
  | .Jobj kvs => "\x7b" ++ pyReprObj kvs ++ "\x7d"

/-- Python `repr(v)`: like `pyStr` but strings are quoted. -/
def pyRepr : JValue → String
  | .Jstr s => "'" ++ s ++ "'"
  | .Jnull => "None"
  | .Jbool b => if b then "True" else "False"
  | .Jnum r => r
  | .Jarr xs => "[" ++ pyReprList xs ++ "]"
  | .Jobj kvs => "\x7b" ++ pyReprObj kvs ++ "\x7d"

/-- Comma-separated `repr` of list elements. -/
def pyReprList : List JValue → String
  | [] => ""
  | [x] => pyRepr x
  | x :: rest => pyRepr x ++ ", " ++ pyReprList rest

/-- Comma-separated `repr` of dict entries. -/
def pyReprObj : List (String × JValue) → String
  | [] => ""
  | [p] => "'" ++ p.1 ++ "': " ++ pyRepr p.2
  | p :: rest => "'" ++ p.1 ++ "': " ++ pyRepr p.2 ++ ", " ++ pyReprObj rest

end

/-- Split a character list at every occurrence of one of the delimiter
characters; embedding of `re.split` on a character class. -/
def splitOnChars (delims : List Char) : List Char → List (List Char)
  | [] => [[]]
  | c :: rest =>
      let r := splitOnChars delims rest
      if delims.contains c then [] :: r
      else
        match r with
        | [] => [[c]]
        | h :: t => (c :: h) :: t

/-- Python `str.strip()`: drop whitespace from both ends. -/
def trimChars (cs : List Char) : List Char :=
  ((cs.dropWhile Char.isWhitespace).reverse.dropWhile Char.isWhitespace).reverse

/-- duplicate.py lines 27 to 28: split the document text on the two
delimiter characters，and 。(a regular expression character class in
the source), strip each fragment and drop empty fragments. -/
def splitSentences (content : String) : List String :=
  (((splitOnChars ['，', '。'] content.toList).map trimChars).filter
    (fun cs => !cs.isEmpty)).map String.mk

/-- Substring containment, over the character lists of the strings. -/
abbrev strInfix (needle hay : String) : Prop :=
  needle.toList <:+: hay.toList

/-- duplicate.py line 44, element access: `(result[j]["content"],
result[j]["metadata"]["score"])` for one element. -/
def getMatch (elem : JValue) : Except PyError (JValue × JValue) := do
  let c ← pySubscrStr elem "content"
  let md ← pySubscrStr elem "metadata"
  let sc ← pySubscrStr md "score"
  pure (c, sc)

/-- duplicate.py lines 36 to 44, processing of one remote response:
`assert isinstance(result, dict)`, `data = result.get("data")`,
`assert isinstance(data, dict)`,
`result = data.get("outputs", \x7b\x7d).get("result")`, then the guarded
extraction `if result and len(result) > 0`.  Returns `none` when the guard
is false (no record entry for the sentence), `some ms` with the extracted
(content, score) pairs when it is true, and an error when the Python code
raises. -/
def extractMatches (resp : JValue) : Except PyError (Option (List (JValue × JValue))) :=
  match resp with
  | .Jobj kvs =>
      match objGet kvs "data" with
      | some (.Jobj dkvs) =>
          match (objGet dkvs "outputs").getD (.Jobj []) with
          | .Jobj okvs =>
              match objGet okvs "result" with
              | none => .ok none
              | some r =>
                  if truthy r then
                    match pyLen r with
                    | .error e => .error e
                    | .ok n =>
                        if n > 0 then
                          ((List.range n).mapM (fun j => do
                            let elem ← pyIndexNat r j
                            getMatch elem)).map some
                        else .ok none
                  else .ok none
          | _ => .error (.attributeError "object has no attribute get")
      | _ => .error .assertionError
  | _ => .error .assertionError

/-- The match record: built incrementally, one entry per sentence that
yielded at least one match, in insertion order (a Python dict). -/
abbrev Record := List (String × List (JValue × JValue))

/-- Python dict assignment `record[k] = v`: overwrites in place when the key
exists, otherwise appends at the end (insertion order). -/
def setEntry (rec : Record) (k : String) (v : List (JValue × JValue)) : Record :=
  if rec.any (fun p => p.1 == k) then
    rec.map (fun p => if p.1 == k then (k, v) else p)
  else rec ++ [(k, v)]

/-- duplicate.py lines 31 to 44, the per-sentence loop.  `oracle` embeds the
remote call `DifyAPIClient(CONFIG.DIFY_CONFIG).run_workflow(...)` already
parsed from JSON (blocking mode); it maps each sentence to the response
value.  An error aborts the remaining sentences. -/
def buildRecord (oracle : String → JValue) : List String → Record → Except PyError Record
  | [], rec => .ok rec
  | s :: rest, rec =>
      match extractMatches (oracle s) with
      | .error e => .error e
      | .ok none => buildRecord oracle rest rec
      | .ok (some ms) => buildRecord oracle rest (setEntry rec s ms)

/-- The record built by `duplicate()` for a document text. -/
def duplicateRecord (oracle : String → JValue) (content : String) : Except PyError Record :=
  buildRecord oracle (splitSentences content) []

/-- duplicate.py lines 53 to 55: the inner enumerate loop over the matches
of one sentence, starting at index 0. -/
def renderMatches : Nat → List (JValue × JValue) → String
  | _, [] => ""
  | i, (c, sc) :: rest =>
      "**重复项 " ++ toString (i + 1) ++ "** (Similarity: " ++ pyStr sc ++ ")\n\n"
        ++ pyStr c ++ "\n\n" ++ renderMatches (i + 1) rest

/-- duplicate.py lines 50 to 56: one report section for a sentence with
matches. -/
def renderSection (s : String) (dups : List (JValue × JValue)) : String :=
  "## 原句\n\n" ++ s ++ "\n\n" ++ "### 重复内容\n\n"
    ++ renderMatches 0 dups ++ "---\n\n"

/-- Concatenation of the report sections of all record entries. -/
def renderSections : Record → String
  | [] => ""
  | (s, dups) :: rest => renderSection s dups ++ renderSections rest

/-- duplicate.py lines 47 to 56: the full markdown report, header first. -/
def renderReport (record : Record) : String :=
  "# 重复内容检测结果\n\n" ++ renderSections record

/-- The report produced by `duplicate()` for a document text: split,
aggregate, render.  An error while processing any sentence aborts the run
before any report exists. -/
def duplicateRun (oracle : String → JValue) (content : String) : Except PyError String :=
  (duplicateRecord oracle content).map renderReport

/-- The filesystem, embedded as an association list from path to file
content.  Directories are not tracked: `os.makedirs` affects no file
content. -/
abbrev FS := List (String × String)

/-- Content of the file at a path, `none` when absent. -/
def fsGet (fs : FS) (p : String) : Option String :=
  (fs.find? (fun q => q.1 == p)).map Prod.snd

/-- `os.path.exists` for files. -/
def fsExists (fs : FS) (p : String) : Bool :=
  (fsGet fs p).isSome

/-- Write a file, replacing any existing content at the path. -/
def fsSet (fs : FS) (p c : String) : FS :=
  if fs.any (fun q => q.1 == p) then
    fs.map (fun q => if q.1 == p then (p, c) else q)
  else fs ++ [(p, c)]

/-- Python `str.endswith`, over characters. -/
def strEndsWith (s suffix : String) : Bool :=
  suffix.toList.isSuffixOf s.toList

/-- document_handler.py lines 150 to 160 and 353 to 363: file type
auto-detection from the path extension, shared by `read` and `write`;
an unknown extension raises `ValueError`. -/
def detectType (p : String) : Except PyError String :=
  if strEndsWith p ".md" || strEndsWith p ".markdown" then .ok "markdown"
  else if strEndsWith p ".docx" then .ok "word"
  else if strEndsWith p ".csv" then .ok "csv"
  else if strEndsWith p ".xlsx" || strEndsWith p ".xls" then .ok "excel"
  else .error (.valueError "Unable to determine file type from extension. Please specify file_type.")

/-- Result of `DocumentHandler.read`: the markdown branch returns the raw
file text; the word, csv and excel branches parse the file with external
libraries (python-docx, pandas), embedded opaquely as the format tag and
the raw stored content. -/
inductive ReadResult where
  | text : String → ReadResult
  | externalFormat : String → String → ReadResult
deriving Repr, DecidableEq

/-- document_handler.py lines 49 to 73: `read_markdown` checks existence
then returns the raw file content. -/
def read_markdown (fs : FS) (p : String) : Except PyError String :=
  match fsGet fs p with
  | none => .error (.fileNotFoundError ("File " ++ p ++ " does not exist"))
  | some c => .ok c

/-- document_handler.py lines 133 to 171: `DocumentHandler.read` with
`file_type=None`: detect the type from the extension (ValueError when
unknown), then dispatch.  Every per-format reader checks existence first
and raises `FileNotFoundError` when the file is absent; the non-markdown
readers delegate to external libraries, embedded opaquely. -/
def docRead (fs : FS) (p : String) : Except PyError ReadResult := do
  let t ← detectType p
  if t == "markdown" then (read_markdown fs p).map .text
  else
    match fsGet fs p with
    | none => .error (.fileNotFoundError ("File " ++ p ++ " does not exist"))
    | some raw => .ok (.externalFormat t raw)

/-- document_handler.py lines 187 to 196, the body of the `try` block of
`write_markdown`: raise `FileExistsError` when the file exists and
`overwrite` is false, otherwise write the content. -/
def write_markdown_inner (fs : FS) (content p : String) (overwrite : Bool) :
    Except PyError (FS × Bool) :=
  if fsExists fs p && !overwrite then
    .error (.fileExistsError ("File " ++ p ++ " already exists and overwrite is set to False"))
  else .ok (fsSet fs p content, true)

/-- document_handler.py lines 174 to 200: `write_markdown` wraps the body
in `try/except Exception`; a raised error is printed and turned into the
return value `False`, leaving the filesystem unchanged. -/
def write_markdown (fs : FS) (content p : String) (overwrite : Bool) : FS × Bool :=
  match write_markdown_inner fs content p overwrite with
  | .ok r => r
  | .error _ => (fs, false)

/-- document_handler.py lines 335 to 385: `DocumentHandler.write` with
`file_type=None` and default `overwrite=False`: detect the type (ValueError
when unknown) and dispatch.  The markdown branch is `write_markdown`; the
word, csv and excel writers share the same existence gate and catch clause
but serialize through external libraries, embedded here as writing the
content under the same gate. -/
def docWrite (fs : FS) (content p : String) : Except PyError (FS × Bool) := do
  let t ← detectType p
  if t == "markdown" then .ok (write_markdown fs content p false)
  else .ok (write_markdown fs content p false)

/-- duplicate.py line 74: `doc_handler.write(markdown_content, output_path)`
with the boolean return value ignored.  The run succeeds whenever the
dispatcher recognizes the extension, even when nothing was written. -/
def duplicateFinalize (fs : FS) (report outputPath : String) : Except PyError FS :=
  (docWrite fs report outputPath).map Prod.fst

/-- The whole `duplicate()` pipeline on an already-read document text:
split, aggregate, render, write; an error while processing any sentence
aborts before anything is written. -/
def duplicateFull (fs : FS) (oracle : String → JValue) (content outputPath : String) :
    Except PyError FS := do
  let record ← buildRecord oracle (splitSentences content) []
  duplicateFinalize fs (renderReport record) outputPath

/-- Which files an endpoint handler deletes during cleanup. -/
structure CleanupActions where
  tmpInputDeleted : Bool
  outputDeleted : Bool
deriving Repr, DecidableEq

/-- api.py lines 78 to 105, the cleanup behavior of the synchronous
endpoint `check_duplicate_content_sync`: on success only the `finally`
block runs and unlinks the temp input; on failure the `except` block
unlinks the temp input and, when the caller supplied `output_path` and the
output file exists, also the output file, and then the `finally` block
unlinks the temp input again (a no-op). -/
def syncEndpointCleanup (success outputPathProvided outputFileExists : Bool) :
    CleanupActions :=
  if success then { tmpInputDeleted := true, outputDeleted := false }
  else { tmpInputDeleted := true, outputDeleted := outputPathProvided && outputFileExists }

/-- api.py lines 145 to 172, the cleanup behavior of the thread-pool
endpoint `check_duplicate_content_async`; its `except` and `finally`
blocks are textually identical to the synchronous ones. -/
def asyncEndpointCleanup (success outputPathProvided outputFileExists : Bool) :
    CleanupActions :=
  if success then { tmpInputDeleted := true, outputDeleted := false }
  else { tmpInputDeleted := true, outputDeleted := outputPathProvided && outputFileExists }

/-- A successfully constructed `DifyAPIClient` with its generated headers. -/
structure DifyClient where
  base_url : String
  api_key : String
  user : String
  headers : List (String × String)
deriving Repr, DecidableEq

/-- dify_client.py lines 59 to 70: `_get_headers`. -/
def getHeaders (api_key : String) : List (String × String) :=
  [("Authorization", "Bearer " ++ api_key), ("Content-Type", "application/json")]

/-- Python `config.get(k, "")` on the configuration dict: a present key
returns its value (which may be Python `None`, embedded as `none`); an
absent key returns the default empty string. -/
def cfgGet (config : List (String × Option String)) (k : String) : Option String :=
  match config.find? (fun p => p.1 == k) with
  | some p => p.2
  | none => some ""

/-- Python falsiness of a string-or-None configuration value:
`None` and the empty string are falsy. -/
def strFalsy : Option String → Bool
  | none => true
  | some s => s == ""

/-- dify_client.py lines 16 to 57: `DifyAPIClient.__init__`.  Extracts
`base_url`, `api_key` and `user` with `config.get(..., "")`, then iterates
the `required_fields` dict in insertion order and raises `ValueError`
naming the first falsy field; on success generates the headers. -/
def difyClientInit (config : List (String × Option String)) : Except PyError DifyClient :=
  let base_url := cfgGet config "base_url"
  let api_key := cfgGet config "api_key"
  let user := cfgGet config "user"
  if strFalsy base_url then
    .error (.valueError "base_url is required in config but not provided")
  else if strFalsy api_key then
    .error (.valueError "api_key is required in config but not provided")
  else if strFalsy user then
    .error (.valueError "user is required in config but not provided")
  else
    .ok { base_url := base_url.getD "", api_key := api_key.getD "",
          user := user.getD "", headers := getHeaders (api_key.getD "") }

/-- The outbound HTTP response, as seen by `run_workflow`. -/
structure HttpResponse where
  status_code : Nat
  text : String
deriving Repr, DecidableEq

/-- Python `str.startswith`, over characters. -/
def strStartsWith (s pre : String) : Bool :=
  pre.toList.isPrefixOf s.toList

/-- Drop the first `n` characters of a string (Python slicing `s[n:]`). -/
def strDrop (s : String) (n : Nat) : String :=
  String.mk (s.toList.drop n)

/-- dify_client.py lines 163 to 194, the body of the streaming loop for one
line of the SSE stream: an empty line is skipped, a line without the
`data: ` prefix is skipped, otherwise the prefix is removed and the rest
parsed with `json.loads` (embedded as the opaque parameter `parse`); a
parse failure yields an inline error object carrying the message and the
raw line instead of raising.  The result is the list of values the source
yields for that line (serialized there with `json.dumps`). -/
def processStreamLine (parse : String → Except String JValue) (line : String) :
    List JValue :=
  if line == "" then []
  else if !(strStartsWith line "data: ") then []
  else
    match parse (strDrop line 6) with
    | .ok v => [v]
    | .error e =>
        [.Jobj [("error", .Jstr ("Failed to parse JSON: " ++ e)),
                ("raw_line", .Jstr line)]]

/-- dify_client.py lines 145 to 194: `_workflow_streaming_process` over the
lines of the SSE body (`response.iter_lines()`). -/
def workflowStreamingProcess (parse : String → Except String JValue)
    (lines : List String) : List JValue :=
  lines.flatMap (processStreamLine parse)

/-- The lines of an SSE body, as produced by `response.iter_lines()`. -/
def iterLines (body : String) : List String :=
  (splitOnChars ['\n'] body.toList).map String.mk

/-- dify_client.py lines 115 to 143: `_workflow_blocking_process` parses
the body with `json.loads` (the opaque parameter `parse`); a parse failure
raises an exception carrying the parse diagnostics and the raw body. -/
def workflowBlockingProcess (parse : String → Except String JValue)
    (resp : HttpResponse) : Except PyError JValue :=
  match parse resp.text with
  | .ok v => .ok v
  | .error e =>
      .error (.exception ("Failed to parse JSON response: " ++ e
        ++ " - Response text: " ++ resp.text))

/-- The value returned by `run_workflow` in either mode. -/
inductive WorkflowResult where
  | blocking : JValue → WorkflowResult
  | streaming : List JValue → WorkflowResult
deriving Repr

/-- dify_client.py lines 96 to 113: `run_workflow` issues one POST (the
single response is the parameter; there is no retry) and checks the
status: 200 dispatches to the streaming or blocking processor, anything
else raises an exception whose message carries the status code and the
body text. -/
def run_workflow (parse : String → Except String JValue) (stream : Bool)
    (resp : HttpResponse) : Except PyError WorkflowResult :=
  if resp.status_code == 200 then
    if stream then
      .ok (.streaming (workflowStreamingProcess parse (iterLines resp.text)))
    else
      (workflowBlockingProcess parse resp).map .blocking
  else
    .error (.exception ("Error: " ++ toString resp.status_code ++ " - " ++ resp.text))

/-- The remote response used by the C3 scenario: one match with the given
content and score under `data.outputs.result`. -/
def mkMatchResp (c sc : JValue) : JValue :=
  .Jobj [("data", .Jobj [("outputs", .Jobj [("result",
    .Jarr [.Jobj [("content", c), ("metadata", .Jobj [("score", sc)])]])])])]

/- ------------------------------------------------------------------ -/
/- Helper lemmas                                                      -/
/- ------------------------------------------------------------------ -/

theorem strInfix_appendL {n a : String} (h : strInfix n a) (b : String) :
    strInfix n (a ++ b) :=
  List.IsInfix.trans h (List.prefix_append a.toList b.toList).isInfix

theorem strInfix_appendR (a : String) {n b : String} (h : strInfix n b) :
    strInfix n (a ++ b) :=
  List.IsInfix.trans h (List.suffix_append a.toList b.toList).isInfix

theorem strInfix_refl (s : String) : strInfix s s :=
  List.infix_refl s.toList

/-- Sentences whose responses pass the guard with no match leave the record
untouched. -/
theorem buildRecord_none (oracle : String → JValue) (l : List String) (rec : Record)
    (h : ∀ s ∈ l, extractMatches (oracle s) = .ok none) :
    buildRecord oracle l rec = .ok rec := by
  induction l generalizing rec with
  | nil => rfl
  | cons s rest ih =>
      have hs := h s (List.mem_cons_self s rest)
      simp only [buildRecord, hs]
      exact ih rec (fun x hx => h x (List.mem_cons_of_mem _ hx))

/-- A raised error while processing any sentence aborts the whole loop. -/
theorem buildRecord_error (oracle : String → JValue) (l : List String) (rec : Record)
    (h : ∃ s ∈ l, ∃ e0, extractMatches (oracle s) = .error e0) :
    ∃ e, buildRecord oracle l rec = .error e := by
  induction l generalizing rec with
  | nil => simp at h
  | cons s rest ih =>
      cases hx : extractMatches (oracle s) with
      | error e => exact ⟨e, by simp only [buildRecord, hx]⟩
      | ok o =>
          obtain ⟨s', hs', e0, he0⟩ := h
          rcases List.mem_cons.mp hs' with rfl | hmem
          · rw [hx] at he0; cases he0
          · cases o with
            | none =>
                simpa only [buildRecord, hx] using ih rec ⟨s', hmem, e0, he0⟩
            | some ms =>
                simpa only [buildRecord, hx] using ih (setEntry rec s ms) ⟨s', hmem, e0, he0⟩

/- ------------------------------------------------------------------ -/
/- Claims                                                             -/
/- ------------------------------------------------------------------ -/

/-- C6: the sentence splitter splits the input on the two delimiter
characters，and 。, trims each fragment and discards empty fragments:
splitting "A，B。C" yields ["A","B","C"] and splitting "  ，  " yields
the empty list. -/
theorem C6_splitter_examples :
    splitSentences "A，B。C" = ["A", "B", "C"] ∧ splitSentences "  ，  " = [] := by
  exact ⟨by decide, by decide⟩

/-- C7: a remote response whose `result` list is empty contributes no entry
to the match mapping for its sentence, and when no sentence yields any
match the rendered report is exactly the header
"# 重复内容检测结果\n\n" and nothing else. -/
theorem C7_empty_result_header :
    (∀ kvs dkvs okvs,
        objGet kvs "data" = some (.Jobj dkvs) →
        (objGet dkvs "outputs").getD (.Jobj []) = .Jobj okvs →
        objGet okvs "result" = some (.Jarr []) →
        extractMatches (.Jobj kvs) = .ok none)
  ∧ (∀ (oracle : String → JValue) (content : String),
        (∀ s ∈ splitSentences content, extractMatches (oracle s) = .ok none) →
        duplicateRun oracle content = .ok "# 重复内容检测结果\n\n") := by
  constructor
  · intro kvs dkvs okvs h1 h2 h3
    simp [extractMatches, h1, h2, h3, truthy]
  · intro oracle content h
    have hb := buildRecord_none oracle _ [] h
    simp only [duplicateRun, duplicateRecord]
    rw [hb]
    rfl

/-- Witness for C7 at a concrete response and a two-sentence document. -/
theorem C7_empty_result_header_witness :
    extractMatches (.Jobj [("data", .Jobj [("outputs", .Jobj [("result", .Jarr [])])])])
      = .ok none
  ∧ duplicateRun
      (fun _ => .Jobj [("data", .Jobj [("outputs", .Jobj [("result", .Jarr [])])])])
      "A，B" = .ok "# 重复内容检测结果\n\n" := by
  constructor
  · exact C7_empty_result_header.1 _ _ _ rfl rfl rfl
  · exact C7_empty_result_header.2 _ _ (fun s _ => rfl)

/-- C2 counterexample: on the thread-pool endpoint, a failed run with a
caller-supplied output path and an existing output file does delete the
output file, contrary to the claim that only the synchronous endpoint
cleans it up. -/
theorem C2_counterexample :
    (asyncEndpointCleanup false true true).outputDeleted = true := rfl

/-- C2 amended: both endpoints delete the temporary input file regardless
of outcome, and both delete the partial output file exactly on their
failure path when the caller supplied `output_path` and the file exists;
the cleanup of the two endpoints is identical, not asymmetric. -/
theorem C2_cleanup_identical (success provided present : Bool) :
    syncEndpointCleanup success provided present
      = asyncEndpointCleanup success provided present
  ∧ (syncEndpointCleanup success provided present).tmpInputDeleted = true
  ∧ (asyncEndpointCleanup success provided present).tmpInputDeleted = true
  ∧ (syncEndpointCleanup success provided present).outputDeleted
      = (!success && (provided && present))
  ∧ (asyncEndpointCleanup success provided present).outputDeleted
      = (!success && (provided && present)) := by
  cases success <;> cases provided <;> cases present <;>
    exact ⟨rfl, rfl, rfl, rfl, rfl⟩

/-- C8: client construction fails with a `ValueError` naming the first
missing or empty field among base_url, api_key and user, and succeeds when
all three are non-empty. -/
theorem C8_config_validation (config : List (String × Option String)) :
    (strFalsy (cfgGet config "base_url") = true →
        difyClientInit config
          = .error (.valueError "base_url is required in config but not provided"))
  ∧ (strFalsy (cfgGet config "base_url") = false →
     strFalsy (cfgGet config "api_key") = true →
        difyClientInit config
          = .error (.valueError "api_key is required in config but not provided"))
  ∧ (strFalsy (cfgGet config "base_url") = false →
     strFalsy (cfgGet config "api_key") = false →
     strFalsy (cfgGet config "user") = true →
        difyClientInit config
          = .error (.valueError "user is required in config but not provided"))
  ∧ (strFalsy (cfgGet config "base_url") = false →
     strFalsy (cfgGet config "api_key") = false →
     strFalsy (cfgGet config "user") = false →
        ∃ cl, difyClientInit config = .ok cl) := by
  refine ⟨?_, ?_, ?_, ?_⟩
  · intro h1; simp [difyClientInit, h1]
  · intro h1 h2; simp [difyClientInit, h1, h2]
  · intro h1 h2 h3; simp [difyClientInit, h1, h2, h3]
  · intro h1 h2 h3
    exact ⟨{ base_url := (cfgGet config "base_url").getD "",
             api_key := (cfgGet config "api_key").getD "",
             user := (cfgGet config "user").getD "",
             headers := getHeaders ((cfgGet config "api_key").getD "") },
           by simp [difyClientInit, h1, h2, h3]⟩

/-- Witness for C8: an empty config, a config with a None api_key, a config
with an empty user, and a fully populated config. -/
theorem C8_config_validation_witness :
    difyClientInit []
      = .error (.valueError "base_url is required in config but not provided")
  ∧ difyClientInit [("base_url", some "https://api.dify.ai"), ("api_key", none), ("user", some "u")]
      = .error (.valueError "api_key is required in config but not provided")
  ∧ difyClientInit [("base_url", some "b"), ("api_key", some "k"), ("user", some "")]
      = .error (.valueError "user is required in config but not provided")
  ∧ (∃ cl, difyClientInit [("base_url", some "b"), ("api_key", some "k"), ("user", some "u")]
      = .ok cl) := by
  refine ⟨?_, ?_, ?_, ?_⟩
  · exact (C8_config_validation []).1 rfl
  · exact (C8_config_validation _).2.1 rfl rfl
  · exact (C8_config_validation _).2.2.1 rfl rfl rfl
  · exact (C8_config_validation _).2.2.2 rfl rfl rfl

/-- C9: a workflow call returning a non-200 status raises an error whose
message includes the numeric status code and the response body text, with
no retry (the single response is consumed once); a 200 status never raises
at the status-check stage and dispatches to the streaming or blocking
processor. -/
theorem C9_status_check (parse : String → Except String JValue) (stream : Bool)
    (resp : HttpResponse) :
    (resp.status_code ≠ 200 →
        run_workflow parse stream resp
          = .error (.exception ("Error: " ++ toString resp.status_code ++ " - " ++ resp.text))
        ∧ strInfix (toString resp.status_code)
            ("Error: " ++ toString resp.status_code ++ " - " ++ resp.text)
        ∧ strInfix resp.text
            ("Error: " ++ toString resp.status_code ++ " - " ++ resp.text))
  ∧ (resp.status_code = 200 →
        run_workflow parse true resp
          = .ok (.streaming (workflowStreamingProcess parse (iterLines resp.text)))
        ∧ run_workflow parse false resp
          = (workflowBlockingProcess parse resp).map .blocking) := by
  constructor
  · intro h
    refine ⟨by simp [run_workflow, h], ?_, ?_⟩
    · exact strInfix_appendL
        (strInfix_appendL (strInfix_appendR "Error: " (strInfix_refl _)) " - ")
        resp.text
    · exact strInfix_appendR ("Error: " ++ toString resp.status_code ++ " - ")
        (strInfix_refl resp.text)
  · intro h
    constructor <;> simp [run_workflow, h]

/-- Witness for C9 at a 404 response and a 200 response. -/
theorem C9_status_check_witness :
    run_workflow (fun _ => .ok .Jnull) false ⟨404, "not found"⟩
      = .error (.exception "Error: 404 - not found")
  ∧ strInfix "404" "Error: 404 - not found"
  ∧ strInfix "not found" "Error: 404 - not found"
  ∧ run_workflow (fun _ => .ok .Jnull) true ⟨200, "data: x"⟩
      = .ok (.streaming (workflowStreamingProcess (fun _ => .ok .Jnull)
          (iterLines "data: x"))) := by
  refine ⟨?_, ?_, ?_, ?_⟩
  · exact ((C9_status_check (fun _ => .ok .Jnull) false ⟨404, "not found"⟩).1 (by decide)).1
  · exact ((C9_status_check (fun _ => .ok .Jnull) false ⟨404, "not found"⟩).1 (by decide)).2.1
  · exact ((C9_status_check (fun _ => .ok .Jnull) false ⟨404, "not found"⟩).1 (by decide)).2.2
  · exact ((C9_status_check (fun _ => .ok .Jnull) true ⟨200, "data: x"⟩).2 rfl).1

/-- C10: in streaming mode, a line that is empty or lacks the `data: `
prefix is silently skipped and yields nothing; a prefixed line with valid
JSON yields the parsed object; a prefixed line with malformed JSON yields
a structured error object carrying the parse error and the raw line; and
the stream continues around any single line. -/
theorem C10_streaming_lines (parse : String → Except String JValue) :
    (∀ line, line = "" ∨ strStartsWith line "data: " = false →
        processStreamLine parse line = [])
  ∧ (∀ line v, strStartsWith line "data: " = true →
        parse (strDrop line 6) = .ok v →
        processStreamLine parse line = [v])
  ∧ (∀ line e, strStartsWith line "data: " = true →
        parse (strDrop line 6) = .error e →
        processStreamLine parse line
          = [.Jobj [("error", .Jstr ("Failed to parse JSON: " ++ e)),
                    ("raw_line", .Jstr line)]])
  ∧ (∀ pre line suf,
        workflowStreamingProcess parse (pre ++ line :: suf)
          = workflowStreamingProcess parse pre
              ++ processStreamLine parse line
              ++ workflowStreamingProcess parse suf) := by
  refine ⟨?_, ?_, ?_, ?_⟩
  · intro line h
    rcases h with h | h
    · simp [processStreamLine, h]
    · by_cases hline : line = ""
      · simp [processStreamLine, hline]
      · simp [processStreamLine, hline, h]
  · intro line v h hp
    by_cases hline : line = ""
    · subst hline; exact absurd h (by decide)
    · simp [processStreamLine, hline, h, hp]
  · intro line e h hp
    by_cases hline : line = ""
    · subst hline; exact absurd h (by decide)
    · simp [processStreamLine, hline, h, hp]
  · intro pre line suf
    simp [workflowStreamingProcess]

/-- Witness for C10 with a concrete toy parser and concrete lines. -/
theorem C10_streaming_lines_witness :
    processStreamLine (fun s => if s == "ok" then .ok .Jnull else .error "bad")
      "event: ping" = []
  ∧ processStreamLine (fun s => if s == "ok" then .ok .Jnull else .error "bad")
      "data: ok" = [.Jnull]
  ∧ processStreamLine (fun s => if s == "ok" then .ok .Jnull else .error "bad")
      "data: zz"
      = [.Jobj [("error", .Jstr "Failed to parse JSON: bad"),
                ("raw_line", .Jstr "data: zz")]]
  ∧ workflowStreamingProcess (fun s => if s == "ok" then .ok .Jnull else .error "bad")
      (["x"] ++ "data: zz" :: ["data: ok"])
      = workflowStreamingProcess (fun s => if s == "ok" then .ok .Jnull else .error "bad") ["x"]
          ++ processStreamLine (fun s => if s == "ok" then .ok .Jnull else .error "bad") "data: zz"
          ++ workflowStreamingProcess (fun s => if s == "ok" then .ok .Jnull else .error "bad") ["data: ok"] := by
  refine ⟨?_, ?_, ?_, ?_⟩
  · exact (C10_streaming_lines _).1 "event: ping" (Or.inr rfl)
  · exact (C10_streaming_lines _).2.1 "data: ok" .Jnull rfl rfl
  · exact (C10_streaming_lines _).2.2.1 "data: zz" "bad" rfl rfl
  · exact (C10_streaming_lines _).2.2.2 ["x"] "data: zz" ["data: ok"]

/-- C4: when the output path names an existing file, the final write step
(`doc_handler.write` with default `overwrite=False`) raises
`FileExistsError` internally, catches it and returns `False`; `duplicate()`
ignores that value, so the run completes without raising while the
pre-existing content stays unchanged and the new report is never
written. -/
theorem C4_existing_output_preserved (fs : FS) (report path old : String)
    (hext : strEndsWith path ".md" = true) (hold : fsGet fs path = some old) :
    write_markdown_inner fs report path false
      = .error (.fileExistsError ("File " ++ path ++ " already exists and overwrite is set to False"))
  ∧ write_markdown fs report path false = (fs, false)
  ∧ duplicateFinalize fs report path = .ok fs := by
  have hex : fsExists fs path = true := by simp [fsExists, hold]
  have hinner : write_markdown_inner fs report path false
      = .error (.fileExistsError ("File " ++ path ++ " already exists and overwrite is set to False")) := by
    simp [write_markdown_inner, hex]
  have hwm : write_markdown fs report path false = (fs, false) := by
    simp [write_markdown, hinner]
  refine ⟨hinner, hwm, ?_⟩
  simp only [duplicateFinalize, docWrite, detectType, hext, hwm]
  rfl

/-- Witness for C4: a pre-existing report file survives, the writer reports
failure, and the run still finishes successfully. -/
theorem C4_existing_output_preserved_witness :
    write_markdown [("out.md", "OLD")] "NEW" "out.md" false = ([("out.md", "OLD")], false)
  ∧ duplicateFinalize [("out.md", "OLD")] "NEW" "out.md" = .ok [("out.md", "OLD")] := by
  have h := C4_existing_output_preserved [("out.md", "OLD")] "NEW" "out.md" "OLD" rfl rfl
  exact ⟨h.2.1, h.2.2⟩

/-- C5: the claim says every uploaded plain-text document is loaded as raw
text and returned as a string; the reader in fact dispatches on the file
extension and raises `ValueError` for a plain-text `.txt` path (the very
usage shown in the docstring of `duplicate()`), taking the raw-text path
only for markdown extensions.  This theorem evaluates the embedded reader
at the failing input and at a markdown path. -/
theorem C5_txt_upload_rejected :
    docRead [("path/to/file.txt", "plain text content")] "path/to/file.txt"
      = .error (.valueError "Unable to determine file type from extension. Please specify file_type.")
  ∧ docRead [("doc.md", "plain text content")] "doc.md" = .ok (.text "plain text content") := by
  exact ⟨rfl, rfl⟩

/-- C1 counterexample: a remote response whose `data` dict merely lacks the
`outputs` (hence also `result`) key does not raise; the run completes and
writes the header-only report, contrary to the claim that any of the three
missing keys aborts the run. -/
theorem C1_counterexample :
    duplicateFull [] (fun _ => .Jobj [("data", .Jobj [])]) "A" "out.md"
      = .ok [("out.md", "# 重复内容检测结果\n\n")] := rfl

/-- C1 amended: a response that is not a dict, or whose `data` key is
missing or not a dict, raises an assertion error, and an error on any
sentence aborts the whole run with nothing written; but a `data` dict that
lacks the `outputs` or `result` keys is tolerated (the `.get` defaults
apply) and simply contributes no entry for that sentence. -/
theorem C1_shape_handling :
    (∀ r : JValue, (∀ kvs, r ≠ .Jobj kvs) →
        extractMatches r = .error .assertionError)
  ∧ (∀ kvs : List (String × JValue), (∀ dkvs, objGet kvs "data" ≠ some (.Jobj dkvs)) →
        extractMatches (.Jobj kvs) = .error .assertionError)
  ∧ (∀ (fs : FS) (oracle : String → JValue) (content outputPath : String),
        (∃ s ∈ splitSentences content, ∃ e0, extractMatches (oracle s) = .error e0) →
        ∃ e, duplicateFull fs oracle content outputPath = .error e)
  ∧ (∀ kvs dkvs, objGet kvs "data" = some (.Jobj dkvs) →
        objGet dkvs "outputs" = none →
        extractMatches (.Jobj kvs) = .ok none)
  ∧ (∀ kvs dkvs okvs, objGet kvs "data" = some (.Jobj dkvs) →
        (objGet dkvs "outputs").getD (.Jobj []) = .Jobj okvs →
        objGet okvs "result" = none →
        extractMatches (.Jobj kvs) = .ok none) := by
  refine ⟨?_, ?_, ?_, ?_, ?_⟩
  · intro r h
    cases r with
    | Jobj kvs => exact absurd rfl (h kvs)
    | Jnull => rfl
    | Jbool b => rfl
    | Jnum s => rfl
    | Jstr s => rfl
    | Jarr xs => rfl
  · intro kvs h
    cases hd : objGet kvs "data" with
    | none => simp [extractMatches, hd]
    | some v =>
        cases v with
        | Jobj dkvs => exact absurd hd (h dkvs)
        | Jnull => simp [extractMatches, hd]
        | Jbool b => simp [extractMatches, hd]
        | Jnum s => simp [extractMatches, hd]
        | Jstr s => simp [extractMatches, hd]
        | Jarr xs => simp [extractMatches, hd]
  · intro fs oracle content outputPath h
    obtain ⟨e, he⟩ := buildRecord_error oracle (splitSentences content) [] h
    exact ⟨e, by simp only [duplicateFull, he]; rfl⟩
  · intro kvs dkvs h1 h2
    simp only [extractMatches, h1, h2]
    rfl
  · intro kvs dkvs okvs h1 h2 h3
    simp [extractMatches, h1, h2, h3]

/-- Witness for C1 at concrete malformed and tolerated responses. -/
theorem C1_shape_handling_witness :
    extractMatches (.Jstr "bad") = .error .assertionError
  ∧ extractMatches (.Jobj [("data", .Jstr "bad")]) = .error .assertionError
  ∧ (∃ e, duplicateFull [] (fun _ => .Jstr "bad") "A" "out.md" = .error e)
  ∧ extractMatches (.Jobj [("data", .Jobj [])]) = .ok none
  ∧ extractMatches (.Jobj [("data", .Jobj [("outputs", .Jobj [])])]) = .ok none := by
  refine ⟨?_, ?_, ?_, ?_, ?_⟩
  · exact C1_shape_handling.1 _ (fun kvs h => JValue.noConfusion h)
  · exact C1_shape_handling.2.1 _ (fun dkvs h => JValue.noConfusion (Option.some.inj h))
  · exact C1_shape_handling.2.2.1 [] _ "A" "out.md" ⟨"A", by decide, .assertionError, rfl⟩
  · exact C1_shape_handling.2.2.2.1 _ [] rfl rfl
  · exact C1_shape_handling.2.2.2.2 _ [("outputs", .Jobj [])] [] rfl rfl rfl

/-- C3 counterexample: in the one-sentence, one-match scenario the mapping
entry is built as claimed, but the rendered report does not contain the
exact string "重复项 1 (Similarity: 0.9)": the renderer wraps the index in
bold markers, producing "**重复项 1** (Similarity: 0.9)". -/
theorem C3_counterexample :
    duplicateRecord (fun _ => mkMatchResp (.Jstr "X") (.Jnum "0.9")) "S"
      = .ok [("S", [(.Jstr "X", .Jnum "0.9")])]
  ∧ duplicateRun (fun _ => mkMatchResp (.Jstr "X") (.Jnum "0.9")) "S"
      = .ok "# 重复内容检测结果\n\n## 原句\n\nS\n\n### 重复内容\n\n**重复项 1** (Similarity: 0.9)\n\nX\n\n---\n\n"
  ∧ ¬ strInfix "重复项 1 (Similarity: 0.9)"
      "# 重复内容检测结果\n\n## 原句\n\nS\n\n### 重复内容\n\n**重复项 1** (Similarity: 0.9)\n\nX\n\n---\n\n" := by
  refine ⟨rfl, rfl, ?_⟩
  decide

/-- C3 amended: for any input that splits into one sentence whose remote
response holds exactly one match with content "X" and score 0.9, the
record gains the entry (sentence, [("X", 0.9)]), and the rendered report
contains "原句", the sentence text, the bold-wrapped
"**重复项 1** (Similarity: 0.9)", and "X". -/
theorem C3_single_match_report (content t : String) (oracle : String → JValue)
    (h1 : splitSentences content = [t])
    (h2 : oracle t = mkMatchResp (.Jstr "X") (.Jnum "0.9")) :
    duplicateRecord oracle content = .ok [(t, [(.Jstr "X", .Jnum "0.9")])]
  ∧ ∃ report, duplicateRun oracle content = .ok report
      ∧ strInfix "原句" report
      ∧ strInfix t report
      ∧ strInfix "**重复项 1** (Similarity: 0.9)" report
      ∧ strInfix "X" report := by
  have hex : extractMatches (oracle t) = .ok (some [(.Jstr "X", .Jnum "0.9")]) := by
    rw [h2]; rfl
  have hrec : duplicateRecord oracle content = .ok [(t, [(.Jstr "X", .Jnum "0.9")])] := by
    simp [duplicateRecord, h1, buildRecord, hex, setEntry]
  refine ⟨hrec, renderReport [(t, [(.Jstr "X", .Jnum "0.9")])],
    by simp only [duplicateRun, hrec]; rfl, ?_, ?_, ?_, ?_⟩
  · exact strInfix_appendR "# 重复内容检测结果\n\n"
      (strInfix_appendL
        (strInfix_appendL
          (strInfix_appendL
            (strInfix_appendL
              (strInfix_appendL
                (strInfix_appendL (by decide) t)
                "\n\n")
              "### 重复内容\n\n")
            (renderMatches 0 [(.Jstr "X", .Jnum "0.9")]))
          "---\n\n")
        "")
  · exact strInfix_appendR "# 重复内容检测结果\n\n"
      (strInfix_appendL
        (strInfix_appendL
          (strInfix_appendL
            (strInfix_appendL
              (strInfix_appendL
                (strInfix_appendR "## 原句\n\n" (strInfix_refl t))
                "\n\n")
              "### 重复内容\n\n")
            (renderMatches 0 [(.Jstr "X", .Jnum "0.9")]))
          "---\n\n")
        "")
  · exact strInfix_appendR "# 重复内容检测结果\n\n"
      (strInfix_appendL
        (strInfix_appendL
          (strInfix_appendR ("## 原句\n\n" ++ t ++ "\n\n" ++ "### 重复内容\n\n")
            (by decide))
          "---\n\n")
        "")
  · exact strInfix_appendR "# 重复内容检测结果\n\n"
      (strInfix_appendL
        (strInfix_appendL
          (strInfix_appendR ("## 原句\n\n" ++ t ++ "\n\n" ++ "### 重复内容\n\n")
            (by decide))
          "---\n\n")
        "")

/-- Witness for C3 at the concrete one-sentence document "S". -/
theorem C3_single_match_report_witness :
    duplicateRecord (fun _ => mkMatchResp (.Jstr "X") (.Jnum "0.9")) "S"
      = .ok [("S", [(.Jstr "X", .Jnum "0.9")])]
  ∧ ∃ report, duplicateRun (fun _ => mkMatchResp (.Jstr "X") (.Jnum "0.9")) "S" = .ok report
      ∧ strInfix "原句" report
      ∧ strInfix "S" report
      ∧ strInfix "**重复项 1** (Similarity: 0.9)" report
      ∧ strInfix "X" report :=
  C3_single_match_report "S" "S" _ (by decide) rfl
